import Mathlib

/-!
Shallow embedding of the quota/limits accounting core of the mrzadmincr
repository (a Telegram-driven administration console for a VPN panel).

Conventions of the embedding:
* SQLite integer columns are modelled as `Int`; COUNT(*) results and page
  arithmetic are modelled as `Nat`.
* ISO-8601 timestamp strings are modelled as integer seconds since an epoch;
  for the fixed ISO format the source uses, lexicographic string comparison
  agrees with chronological comparison, and `timedelta(days=d)` is `d * 86400`
  seconds.
* Python float arithmetic on GB conveniences is modelled over `Rat`, with
  `round(x, 2)` modelled as exact rational half-to-even rounding (`pyRound2`).
* The remote Marzban API is modelled by an `Option MarzbanStub` argument:
  `none` means `self.marzban_api is None`; otherwise the stub carries the
  outcome each remote call would produce.
* Each database table of `setup_database` (bot_Version5.py) that the claims
  touch is a list field of `DB`; an operation is a function from the old `DB`
  (plus its parameters and the current time) to its result and the new `DB`.
-/

namespace MrzAdmin

/-! ## Data model and operations (shallow embedding of the source) -/

/-- A row of the `resellers` table (bot_Version5.py `setup_database`). -/
structure Reseller where
  reseller_id : Int
  telegram_id : Int
  username : String
  marzban_username : String
  bandwidth_limit : Int
  bandwidth_used : Int
  expiry_date : Int
  max_users : Int
  current_users : Int
  created_at : Int
deriving DecidableEq

/-- A row of the `end_users` table. -/
structure EndUser where
  user_id : Int
  reseller_id : Int
  username : String
  marzban_username : String
  bandwidth_limit : Int
  bandwidth_used : Int
  expiry_date : Int
  connection_limit : Int
  created_at : Int
deriving DecidableEq

/-- A row of the `notifications` table. -/
structure Notification where
  user_id : Int
  notification_type : String
  sent_at : Int
deriving DecidableEq

/-- A row of the `usage_log` table (the usage ledger of the spec). -/
structure UsageLogRow where
  admin_username : String
  bandwidth_added : Int
  users_added : Int
  timestamp : Int
deriving DecidableEq

/-- The persistent store, restricted to the tables the claims touch. -/
structure DB where
  resellers : List Reseller
  end_users : List EndUser
  notifications : List Notification
  usage_log : List UsageLogRow
deriving DecidableEq

/-- Outcomes of the remote Marzban API calls an operation may issue
(`self.marzban_api` present).  `getResult = some t` models a successful
`get_user_info` whose payload carries `used_traffic = t`; `none` models a
failed call.  `createOk` / `updateOk` model success of `create_user` /
`update_user`. -/
structure MarzbanStub where
  getResult : Option Int
  createOk : Bool
  updateOk : Bool
deriving DecidableEq

/-- Embeds `SELECT ... FROM resellers WHERE telegram_id = ?` (first row). -/
def findResellerByTelegram (db : DB) (tid : Int) : Option Reseller :=
  db.resellers.find? (fun r => r.telegram_id == tid)

/-- Embedding of `UserManager.create_user` (user_manager.py lines 15-118).
`uid` stands for the generated `uuid.uuid4().hex[:8]` suffix, `now` for
`datetime.now()`.  Returns the success flag and the new store. -/
def create_user (db : DB) (reseller_telegram_id : Int) (username : String)
    (bandwidth_gb : Int) (days : Int) (connection_limit : Int)
    (now : Int) (uid : String) (api : Option MarzbanStub) : Bool × DB :=
  match findResellerByTelegram db reseller_telegram_id with
  | none => (false, db)
  | some r =>
    if r.current_users ≥ r.max_users then (false, db)
    else
      let user_bandwidth_bytes := bandwidth_gb * 1024 ^ 3
      if r.bandwidth_used + user_bandwidth_bytes > r.bandwidth_limit then (false, db)
      else
        let user_marzban_username := "user_" ++ username ++ "_" ++ uid
        let expiry_date := now + days * 86400
        let remoteFailed : Bool :=
          match api with
          | some a => !a.createOk
          | none => false
        if remoteFailed then (false, db)
        else
          let newUser : EndUser :=
            { user_id := (db.end_users.length : Int) + 1
              reseller_id := r.reseller_id
              username := username
              marzban_username := user_marzban_username
              bandwidth_limit := user_bandwidth_bytes
              bandwidth_used := 0
              expiry_date := expiry_date
              connection_limit := connection_limit
              created_at := now }
          let resellers' := db.resellers.map fun x =>
            if x.reseller_id == r.reseller_id then
              { x with current_users := x.current_users + 1
                       bandwidth_used := x.bandwidth_used + user_bandwidth_bytes }
            else x
          (true, { db with end_users := db.end_users ++ [newUser]
                           resellers := resellers' })

/-- The `limits` JSON blob of a `marzban_admins` row after
`get_admin_limits` merged in its defaults (admin_limits.py lines 89-106). -/
structure AdminLimits where
  max_bandwidth_gb : Rat
  max_users : Int
  max_days : Int
  used_bandwidth_gb : Rat
  created_users : Int
  expiry_date : Option Int
deriving DecidableEq

/-- Embedding of `AdminLimitsManager.check_admin_limits` (admin_limits.py lines 154-188):
the returned `is_limited` flag. -/
def check_admin_limits (l : AdminLimits) (now : Int) : Bool :=
  ((decide (0 < l.max_bandwidth_gb)) && (decide (l.max_bandwidth_gb ≤ l.used_bandwidth_gb))) ||
  ((decide (0 < l.max_users)) && (decide (l.max_users ≤ l.created_users))) ||
  (match l.expiry_date with
   | some e => decide (e < now)
   | none => false)

/-- Follows the words of the spec only (§4.1 `checkAllocation`), for comparison
with the allocation check of the source: Allowed (`true`) unless a bounded entity
cap or a bounded bandwidth cap is exceeded, a cap of 0 counting as
unbounded in that dimension. -/
def specCheckAllocation (maxEntities usedEntities limitBytes usedBytes requestedBytes : Int) : Bool :=
  !(((decide (0 < maxEntities)) && (decide (maxEntities < usedEntities + 1))) ||
    ((decide (0 < limitBytes)) && (decide (limitBytes < usedBytes + requestedBytes))))

/-- Python `round` to an integer: nearest, ties to even. -/
def pyRound (q : Rat) : Int :=
  let f := Int.floor q
  let frac := q - (f : Rat)
  if frac < 1 / 2 then f
  else if 1 / 2 < frac then f + 1
  else if f % 2 = 0 then f else f + 1

/-- Python `round(x, 2)`. -/
def pyRound2 (q : Rat) : Rat := ((pyRound (q * 100) : Int) : Rat) / 100

/-- The `"bandwidth"` record built identically by
`ResellerManager.get_reseller_info` (reseller_manager_Version3.py lines
167-175) and `UserManager.get_user_info` (user_manager.py lines 178-186). -/
structure BandwidthInfo where
  limit_bytes : Int
  limit_gb : Rat
  used_bytes : Int
  used_gb : Rat
  remaining_bytes : Int
  remaining_gb : Rat
  percent_used : Rat
deriving DecidableEq

/-- Construction of the `"bandwidth"` record from the stored limit and the
(possibly remote-refreshed) usage, field for field as in the source. -/
def mkBandwidthInfo (bandwidth_limit bandwidth_used : Int) : BandwidthInfo :=
  { limit_bytes := bandwidth_limit
    limit_gb := pyRound2 ((bandwidth_limit : Rat) / 1024 ^ 3)
    used_bytes := bandwidth_used
    used_gb := pyRound2 ((bandwidth_used : Rat) / 1024 ^ 3)
    remaining_bytes := max 0 (bandwidth_limit - bandwidth_used)
    remaining_gb := pyRound2 (((max 0 (bandwidth_limit - bandwidth_used) : Int) : Rat) / 1024 ^ 3)
    percent_used :=
      if bandwidth_limit > 0 then
        pyRound2 ((bandwidth_used : Rat) / (bandwidth_limit : Rat) * 100)
      else 0 }

/-- The `"users"` record of `get_reseller_info`. -/
structure ResellerUsers where
  max : Int
  current : Int
  remaining : Int
deriving DecidableEq

/-- The dictionary returned by `get_reseller_info` (fields the claims use). -/
structure ResellerInfo where
  reseller_id : Int
  telegram_id : Int
  username : String
  marzban_username : String
  bandwidth : BandwidthInfo
  expiry_date : Int
  days_remaining : Int
  users : ResellerUsers
  created_at : Int
deriving DecidableEq

/-- The dictionary returned by `get_user_info` (fields the claims use). -/
structure UserInfo where
  user_id : Int
  reseller_id : Int
  username : String
  marzban_username : String
  bandwidth : BandwidthInfo
  expiry_date : Int
  days_remaining : Int
  connection_limit : Int
  created_at : Int
deriving DecidableEq

/-- Python truthiness of an optional integer parameter (`if telegram_id:`). -/
def truthyInt : Option Int → Bool
  | none => false
  | some x => x != 0

/-- Python truthiness of an optional string parameter. -/
def truthyStr : Option String → Bool
  | none => false
  | some s => s != ""

/-- The query building of `get_reseller_info` (reseller_manager_Version3.py
lines 118-135): selector priority `telegram_id`, then `reseller_id`, then
`marzban_username`, each guarded by Python truthiness. -/
def lookupReseller (db : DB) (telegram_id reseller_id : Option Int)
    (marzban_username : Option String) : Option Reseller :=
  if truthyInt telegram_id then
    db.resellers.find? (fun r => some r.telegram_id == telegram_id)
  else if truthyInt reseller_id then
    db.resellers.find? (fun r => some r.reseller_id == reseller_id)
  else if truthyStr marzban_username then
    db.resellers.find? (fun r => some r.marzban_username == marzban_username)
  else none

/-- Embedding of `ResellerManager.get_reseller_info` (reseller_manager_Version3.py lines
105-194).  When the API is present and the stored `marzban_username` is
truthy, a successful remote `get_user_info` overwrites the stored
`bandwidth_used` with the reported `used_traffic` (committed back to the
store); limits and expiry stay local.  `now` is `datetime.now()`. -/
def get_reseller_info (db : DB) (telegram_id reseller_id : Option Int)
    (marzban_username : Option String) (api : Option MarzbanStub) (now : Int) :
    Option ResellerInfo × DB :=
  match lookupReseller db telegram_id reseller_id marzban_username with
  | none => (none, db)
  | some r =>
    let remoteUsed : Option Int :=
      match api with
      | some a => if r.marzban_username == "" then none else a.getResult
      | none => none
    let bandwidth_used := remoteUsed.getD r.bandwidth_used
    let db' : DB :=
      match remoteUsed with
      | some t =>
        { db with resellers := db.resellers.map fun x =>
            if x.reseller_id == r.reseller_id then { x with bandwidth_used := t } else x }
      | none => db
    (some { reseller_id := r.reseller_id
            telegram_id := r.telegram_id
            username := r.username
            marzban_username := r.marzban_username
            bandwidth := mkBandwidthInfo r.bandwidth_limit bandwidth_used
            expiry_date := r.expiry_date
            days_remaining := Int.fdiv (r.expiry_date - now) 86400
            users := { max := r.max_users
                       current := r.current_users
                       remaining := max 0 (r.max_users - r.current_users) }
            created_at := r.created_at }, db')

/-- The query building of `get_user_info` (user_manager.py lines 132-143):
`user_id` first, then `marzban_username`, Python truthiness. -/
def lookupEndUser (db : DB) (user_id : Option Int) (marzban_username : Option String) :
    Option EndUser :=
  if truthyInt user_id then
    db.end_users.find? (fun u => some u.user_id == user_id)
  else if truthyStr marzban_username then
    db.end_users.find? (fun u => some u.marzban_username == marzban_username)
  else none

/-- Embedding of `UserManager.get_user_info` (user_manager.py lines 120-201).  Mirrors
`get_reseller_info`: after the row is parsed, the remote refresh is guarded
by the stored `marzban_username` of the row (the parameter is shadowed in the
source). -/
def get_user_info (db : DB) (user_id : Option Int) (marzban_username : Option String)
    (api : Option MarzbanStub) (now : Int) : Option UserInfo × DB :=
  match lookupEndUser db user_id marzban_username with
  | none => (none, db)
  | some u =>
    let remoteUsed : Option Int :=
      match api with
      | some a => if u.marzban_username == "" then none else a.getResult
      | none => none
    let bandwidth_used := remoteUsed.getD u.bandwidth_used
    let db' : DB :=
      match remoteUsed with
      | some t =>
        { db with end_users := db.end_users.map fun x =>
            if x.user_id == u.user_id then { x with bandwidth_used := t } else x }
      | none => db
    (some { user_id := u.user_id
            reseller_id := u.reseller_id
            username := u.username
            marzban_username := u.marzban_username
            bandwidth := mkBandwidthInfo u.bandwidth_limit bandwidth_used
            expiry_date := u.expiry_date
            days_remaining := Int.fdiv (u.expiry_date - now) 86400
            connection_limit := u.connection_limit
            created_at := u.created_at }, db')

/-- Embedding of `ResellerManager.update_reseller_limits` (reseller_manager_Version3.py
lines 253-328): reads the reseller through `get_reseller_info`, adds the
requested amounts to the current limit values (the expiry extension is
anchored to the stored `expiry_date`), pushes the new limits to the remote
panel when the API is present, and commits locally only if that push did
not fail. -/
def update_reseller_limits (db : DB) (reseller_id telegram_id : Option Int)
    (marzban_username : Option String)
    (add_bandwidth_gb add_days add_users : Int)
    (api : Option MarzbanStub) (now : Int) : Bool × DB :=
  match get_reseller_info db telegram_id reseller_id marzban_username api now with
  | (none, db') => (false, db')
  | (some info, db') =>
    let new_bandwidth := info.bandwidth.limit_bytes + add_bandwidth_gb * 1024 ^ 3
    let new_expiry := info.expiry_date + add_days * 86400
    let new_max_users := info.users.max + add_users
    let remoteFailed : Bool :=
      match api with
      | some a => !a.updateOk
      | none => false
    if remoteFailed then (false, db')
    else
      (true, { db' with resellers := db'.resellers.map fun x =>
          if x.reseller_id == info.reseller_id then
            { x with bandwidth_limit := new_bandwidth
                     expiry_date := new_expiry
                     max_users := new_max_users }
          else x })

/-- An item of the list returned by `list_resellers`
(reseller_manager_Version3.py lines 232-243). -/
structure ResellerListItem where
  reseller_id : Int
  telegram_id : Int
  username : String
  marzban_username : String
  bandwidth_limit_gb : Rat
  bandwidth_used_gb : Rat
  bandwidth_percent : Rat
  days_remaining : Int
  max_users : Int
  current_users : Int
deriving DecidableEq

/-- Embedding of `ResellerManager.list_resellers` (reseller_manager_Version3.py lines
196-251): `total_pages = (total_count + page_size - 1) // page_size`,
then `LIMIT page_size OFFSET page * page_size`. -/
def list_resellers (db : DB) (page page_size : Nat) (now : Int) :
    Bool × List ResellerListItem × Nat :=
  let total_count := db.resellers.length
  let total_pages := (total_count + page_size - 1) / page_size
  let rows := (db.resellers.drop (page * page_size)).take page_size
  (true,
   rows.map (fun r =>
     { reseller_id := r.reseller_id
       telegram_id := r.telegram_id
       username := r.username
       marzban_username := r.marzban_username
       bandwidth_limit_gb := pyRound2 ((r.bandwidth_limit : Rat) / 1024 ^ 3)
       bandwidth_used_gb := pyRound2 ((r.bandwidth_used : Rat) / 1024 ^ 3)
       bandwidth_percent :=
         if (r.bandwidth_limit : Int) > 0 then
           pyRound2 ((r.bandwidth_used : Rat) / (r.bandwidth_limit : Rat) * 100)
         else 0
       days_remaining := Int.fdiv (r.expiry_date - now) 86400
       max_users := r.max_users
       current_users := r.current_users }),
   total_pages)

/-- An item of the list returned by `list_users_for_reseller`
(user_manager.py lines 248-257). -/
structure UserListItem where
  user_id : Int
  username : String
  marzban_username : String
  bandwidth_limit_gb : Rat
  bandwidth_used_gb : Rat
  bandwidth_percent : Rat
  days_remaining : Int
  connection_limit : Int
deriving DecidableEq

/-- Embedding of `UserManager.list_users_for_reseller` (user_manager.py lines 203-265):
`total_pages = (total_count + page_size - 1) // page_size if total_count > 0
else 1`; a missing reseller is an error with `total_pages = 0`. -/
def list_users_for_reseller (db : DB) (reseller_telegram_id : Int)
    (page page_size : Nat) (now : Int) : Bool × List UserListItem × Nat :=
  match findResellerByTelegram db reseller_telegram_id with
  | none => (false, [], 0)
  | some r =>
    let rows_all := db.end_users.filter (fun u => u.reseller_id == r.reseller_id)
    let total_count := rows_all.length
    let total_pages :=
      if total_count > 0 then (total_count + page_size - 1) / page_size else 1
    let rows := (rows_all.drop (page * page_size)).take page_size
    (true,
     rows.map (fun u =>
       { user_id := u.user_id
         username := u.username
         marzban_username := u.marzban_username
         bandwidth_limit_gb := pyRound2 ((u.bandwidth_limit : Rat) / 1024 ^ 3)
         bandwidth_used_gb := pyRound2 ((u.bandwidth_used : Rat) / 1024 ^ 3)
         bandwidth_percent :=
           if (u.bandwidth_limit : Int) > 0 then
             pyRound2 ((u.bandwidth_used : Rat) / (u.bandwidth_limit : Rat) * 100)
           else 0
         days_remaining := Int.fdiv (u.expiry_date - now) 86400
         connection_limit := u.connection_limit }),
     total_pages)

/-- Holds when a notification of the given kind for the given user has a
`sent_at` newer than the window: the dedup subquery of both sweeps of
`check_and_notify_users`. -/
def hasRecentNotification (notifs : List Notification) (uid : Int) (kind : String)
    (now windowSeconds : Int) : Bool :=
  notifs.any fun n =>
    n.user_id == uid && n.notification_type == kind &&
      decide (now - windowSeconds < n.sent_at)

/-- The bandwidth-warning SELECT of `UserManager.check_and_notify_users`
(user_manager.py lines 278-290): end-users joined to an existing owning
reseller, remaining bandwidth `≤ 322122547200` and `> 0`, and no
`bandwidth_warning` notification newer than 3 days. -/
def bandwidthWarningRows (db : DB) (now : Int) : List EndUser :=
  db.end_users.filter fun u =>
    (db.resellers.any fun r => r.reseller_id == u.reseller_id) &&
    decide (u.bandwidth_limit - u.bandwidth_used ≤ 322122547200) &&
    decide (0 < u.bandwidth_limit - u.bandwidth_used) &&
    !(hasRecentNotification db.notifications u.user_id "bandwidth_warning" now (3 * 86400))

/-- The expiry-warning SELECT of `check_and_notify_users` (user_manager.py
lines 317-329): `julianday(expiry) - julianday(now)` in `(0, 3]` days and no
`expiry_warning` notification newer than 1 day. -/
def expiryWarningRows (db : DB) (now : Int) : List EndUser :=
  db.end_users.filter fun u =>
    (db.resellers.any fun r => r.reseller_id == u.reseller_id) &&
    decide (u.expiry_date - now ≤ 3 * 86400) &&
    decide (0 < u.expiry_date - now) &&
    !(hasRecentNotification db.notifications u.user_id "expiry_warning" now 86400)

/-- Embedding of `UserManager.check_and_notify_users` (user_manager.py lines 267-362):
inserts one `bandwidth_warning` notification per selected row, then runs the
expiry selection against the state including those inserts, then commits. -/
def check_and_notify_users (db : DB) (now : Int) : DB :=
  let bw := bandwidthWarningRows db now
  let bwNotifs : List Notification := bw.map fun u =>
    { user_id := u.user_id, notification_type := "bandwidth_warning", sent_at := now }
  let db1 : DB := { db with notifications := db.notifications ++ bwNotifs }
  let ex := expiryWarningRows db1 now
  let exNotifs : List Notification := ex.map fun u =>
    { user_id := u.user_id, notification_type := "expiry_warning", sent_at := now }
  { db1 with notifications := db1.notifications ++ exNotifs }

/-- The shared call pattern of the five `MarzbanAPI` methods
(`create_user`, `get_user_info`, `update_user`, `delete_user`,
`get_all_users`; bot_Version5.py lines 157-247): if no token is held, log in
once (`loginToken` models the token a login would yield, `none` a failed
login); then issue the request once and surface any non-200 status as a
failure.  Besides the call outcome it returns how many login exchanges and
how many request attempts were made. -/
def marzbanCall (token : Option String) (loginToken : Option String)
    (respond : String → Nat × String) : (Bool × String) × Nat × Nat :=
  match token with
  | some t =>
    let r := respond t
    if r.1 == 200 then ((true, r.2), 0, 1)
    else ((false, "API error"), 0, 1)
  | none =>
    match loginToken with
    | none => ((false, "auth error"), 1, 0)
    | some t =>
      let r := respond t
      if r.1 == 200 then ((true, r.2), 1, 1)
      else ((false, "API error"), 1, 1)

/-- A remote API stub whose calls all succeed and report nothing new. -/
def apiOk : MarzbanStub := { getResult := none, createOk := true, updateOk := true }

/-- The reseller of the §8 scenario of the spec: 100GiB limit, nothing used,
room for two users. -/
def scenarioReseller : Reseller :=
  { reseller_id := 1, telegram_id := 10, username := "res",
    marzban_username := "reseller_res_ab12cd34",
    bandwidth_limit := 100 * 1024 ^ 3, bandwidth_used := 0,
    expiry_date := 30 * 86400, max_users := 2, current_users := 0, created_at := 0 }

def scenarioDb : DB :=
  { resellers := [scenarioReseller], end_users := [], notifications := [], usage_log := [] }

/-- First step of the scenario: a 60GiB end-user is created. -/
def scenarioStep1 : Bool × DB :=
  create_user scenarioDb 10 "u1" 60 30 3 0 "aaaa1111" (some apiOk)

def scenarioDb1 : DB := scenarioStep1.2

/-- A reseller whose caps are both 0: per the spec both dimensions would be
unbounded; per the source both are exhausted. -/
def zeroCapReseller : Reseller :=
  { reseller_id := 1, telegram_id := 10, username := "res",
    marzban_username := "reseller_res_ab12cd34",
    bandwidth_limit := 0, bandwidth_used := 0,
    expiry_date := 30 * 86400, max_users := 0, current_users := 0, created_at := 0 }

def zeroCapDb : DB :=
  { resellers := [zeroCapReseller], end_users := [], notifications := [], usage_log := [] }

/-- The reseller row after the successful 60GiB allocation of the scenario. -/
def scenarioReseller1 : Reseller :=
  { scenarioReseller with bandwidth_used := 60 * 1024 ^ 3, current_users := 1 }

/-- A reseller whose budget expired two days before the reference time
`1000000`. -/
def expiredReseller : Reseller :=
  { reseller_id := 1, telegram_id := 10, username := "res",
    marzban_username := "reseller_res_ab12cd34",
    bandwidth_limit := 100 * 1024 ^ 3, bandwidth_used := 0,
    expiry_date := 1000000 - 2 * 86400, max_users := 10, current_users := 0,
    created_at := 0 }

def expiredDb : DB :=
  { resellers := [expiredReseller], end_users := [], notifications := [], usage_log := [] }

def emptyDb : DB :=
  { resellers := [], end_users := [], notifications := [], usage_log := [] }

/-- A generic reseller row for bulk stores. -/
def mkReseller (i : Int) : Reseller :=
  { reseller_id := i, telegram_id := 100 + i, username := "r", marzban_username := "m",
    bandwidth_limit := 1024 ^ 3, bandwidth_used := 0, expiry_date := 30 * 86400,
    max_users := 10, current_users := 0, created_at := 0 }

/-- A store with 25 resellers. -/
def db25 : DB :=
  { resellers := (List.range 25).map (fun i => mkReseller (i : Int)),
    end_users := [], notifications := [], usage_log := [] }

/-- A generic end-user row owned by reseller 1. -/
def mkEndUser (i : Int) : EndUser :=
  { user_id := i, reseller_id := 1, username := "u", marzban_username := "mu",
    bandwidth_limit := 1024 ^ 3, bandwidth_used := 0, expiry_date := 30 * 86400,
    connection_limit := 3, created_at := 0 }

/-- A store with one reseller owning 25 end-users. -/
def db25users : DB :=
  { resellers := [scenarioReseller],
    end_users := (List.range 25).map (fun i => mkEndUser (i : Int)),
    notifications := [], usage_log := [] }

/-- The reseller owning the boundary end-users below. -/
def bwReseller : Reseller :=
  { reseller_id := 1, telegram_id := 10, username := "res", marzban_username := "m",
    bandwidth_limit := 1024 ^ 3, bandwidth_used := 0, expiry_date := 100 * 86400,
    max_users := 10, current_users := 1, created_at := 0 }

/-- An end-user with the given bandwidth limit, nothing used, far-future
expiry — its remaining bandwidth is exactly `limit`. -/
def bwUserAt (limit : Int) : EndUser :=
  { user_id := 1, reseller_id := 1, username := "u", marzban_username := "mu",
    bandwidth_limit := limit, bandwidth_used := 0, expiry_date := 100 * 86400,
    connection_limit := 3, created_at := 0 }

def bwDbAt (limit : Int) : DB :=
  { resellers := [bwReseller], end_users := [bwUserAt limit],
    notifications := [], usage_log := [] }

/-- The number of `bandwidth_warning` notification rows recorded for a
given end-user id. -/
def countBW (db : DB) (uid : Int) : Nat :=
  (db.notifications.filter fun n =>
    n.user_id == uid && n.notification_type == "bandwidth_warning").length

/-- A store with one end-user whose remaining bandwidth qualifies for a
warning and no notification yet. -/
def c8Db : DB :=
  { resellers := [bwReseller], end_users := [bwUserAt 322122547200],
    notifications := [], usage_log := [] }

/-- A throwaway inhabitant used only as the `getD` fallback below. -/
def blankInfo : ResellerInfo :=
  { reseller_id := 0, telegram_id := 0, username := "", marzban_username := "",
    bandwidth := { limit_bytes := 0, limit_gb := 0, used_bytes := 0, used_gb := 0,
                   remaining_bytes := 0, remaining_gb := 0, percent_used := 0 },
    expiry_date := 0, days_remaining := 0,
    users := { max := 0, current := 0, remaining := 0 }, created_at := 0 }

/-- The info record `get_reseller_info` returns over the scenario store with
no remote API. -/
def scenarioInfo : ResellerInfo :=
  (get_reseller_info scenarioDb (some 10) none none none 0).1.getD blankInfo

/-! ## Theorems -/

/-- C1 counterexample.  The claim says a parent with `maxEntities == 0` or
`limitBytes == 0` is treated as unbounded in that dimension.  For the
reseller allocation check of `UserManager.create_user` this is false: with
`max_users = 0, current_users = 0, bandwidth_limit = 0, bandwidth_used = 0`
the `checkAllocation` of the spec allows a 1GB end-user, but the code denies it
(at `current_users >= max_users`) and changes nothing. -/
theorem c1_zero_cap_counterexample :
    specCheckAllocation 0 0 0 0 (1 * 1024 ^ 3) = true ∧
    create_user zeroCapDb 10 "u" 1 30 3 0 "bbbb2222" (some apiOk) = (false, zeroCapDb) := by
  constructor
  · rfl
  · rfl

/-- C1 amended: the reseller allocation check of `create_user` denies
exactly when `current_users ≥ max_users` or
`bandwidth_used + requestedBytes > bandwidth_limit`, with a zero cap acting
as zero capacity rather than as unlimited; only the admin-level
`check_admin_limits` treats a cap of 0 as unbounded, its two cap dimensions
(and the expiry check) being independent. -/
theorem c1_allocation_check_amended :
    (∀ (db : DB) (tid : Int) (uname : String) (gb days cl now : Int) (uid : String)
        (api : Option MarzbanStub) (r : Reseller),
        findResellerByTelegram db tid = some r →
        (match api with | some a => a.createOk | none => true) = true →
        ((create_user db tid uname gb days cl now uid api).1 = false ↔
          (r.max_users ≤ r.current_users ∨
           r.bandwidth_limit < r.bandwidth_used + gb * 1024 ^ 3))) ∧
    (∀ (l : AdminLimits) (now : Int),
        check_admin_limits l now = true ↔
          ((0 < l.max_bandwidth_gb ∧ l.max_bandwidth_gb ≤ l.used_bandwidth_gb) ∨
           (0 < l.max_users ∧ l.max_users ≤ l.created_users) ∨
           (∃ e, l.expiry_date = some e ∧ e < now))) := by
  constructor
  · intro db tid uname gb days cl now uid api r hfind hapi
    unfold create_user
    rw [hfind]
    dsimp only
    split_ifs with h1 h2 h3
    · exact iff_of_true rfl (Or.inl h1)
    · exact iff_of_true rfl (Or.inr h2)
    · exfalso
      cases api with
      | none => exact absurd h3 (by simp)
      | some a =>
        simp only [] at hapi h3
        rw [hapi] at h3
        exact absurd h3 (by simp)
    · exact iff_of_false (by simp) (by omega)
  · intro l now
    unfold check_admin_limits
    cases hx : l.expiry_date with
    | none =>
      simp [hx]
    | some e =>
      simp [hx, or_assoc]

/-- C1 witness: the amended characterization applied to the concrete
zero-cap store. -/
theorem c1_allocation_check_witness :
    (create_user zeroCapDb 10 "u" 1 30 3 0 "bbbb2222" (some apiOk)).1 = false ↔
      (zeroCapReseller.max_users ≤ zeroCapReseller.current_users ∨
       zeroCapReseller.bandwidth_limit <
         zeroCapReseller.bandwidth_used + 1 * 1024 ^ 3) :=
  c1_allocation_check_amended.1 zeroCapDb 10 "u" 1 30 3 0 "bbbb2222" (some apiOk)
    zeroCapReseller (by decide) (by decide)

/-- C2: `create_user` is all-or-nothing.  Whenever the request is denied by
the entity cap or the bandwidth cap, the result is a failure and the store —
the reseller rows, the `end_users` table, the notification table and the
usage ledger — is returned byte-for-byte unchanged.  In particular, after a
successful 60GiB allocation against a 100GiB limit, a second 50GiB request
is denied with `bandwidth_used` still at 60GiB. -/
theorem c2_reserve_all_or_nothing :
    (∀ (db : DB) (tid : Int) (uname : String) (gb days cl now : Int) (uid : String)
        (api : Option MarzbanStub) (r : Reseller),
        findResellerByTelegram db tid = some r →
        (r.current_users ≥ r.max_users ∨
         r.bandwidth_used + gb * 1024 ^ 3 > r.bandwidth_limit) →
        create_user db tid uname gb days cl now uid api = (false, db)) ∧
    (scenarioStep1.1 = true ∧
     findResellerByTelegram scenarioDb1 10 = some scenarioReseller1 ∧
     create_user scenarioDb1 10 "u2" 50 30 3 0 "cccc3333" (some apiOk) =
       (false, scenarioDb1)) := by
  constructor
  · intro db tid uname gb days cl now uid api r hfind hd
    unfold create_user
    rw [hfind]
    dsimp only
    split_ifs with h1 h2 h3
    · rfl
    · rfl
    · exfalso; omega
    · exfalso; omega
  · refine ⟨by decide, by decide, by decide⟩

/-- C2 witness: the all-or-nothing law applied to the denied second request
of the scenario. -/
theorem c2_reserve_all_or_nothing_witness :
    create_user scenarioDb1 10 "u2" 50 30 3 0 "cccc3333" (some apiOk) =
      (false, scenarioDb1) :=
  c2_reserve_all_or_nothing.1 scenarioDb1 10 "u2" 50 30 3 0 "cccc3333" (some apiOk)
    scenarioReseller1 (by decide) (Or.inr (by decide))

/-- A successful `lookupReseller` returns a stored row. -/
theorem lookupReseller_mem {db : DB} {tid rid : Option Int} {mu : Option String}
    {r : Reseller} (h : lookupReseller db tid rid mu = some r) : r ∈ db.resellers := by
  unfold lookupReseller at h
  split_ifs at h <;> exact List.mem_of_find?_eq_some h

/-- What `get_reseller_info` yields on a found row: the info mirrors the
stored limits, the write-back touches at most `bandwidth_used` of reseller
rows, and the other tables are untouched. -/
theorem get_reseller_info_found {db : DB} {tid rid : Option Int} {mu : Option String}
    {api : Option MarzbanStub} {now : Int} {r : Reseller}
    (h : lookupReseller db tid rid mu = some r) :
    ∃ info db', get_reseller_info db tid rid mu api now = (some info, db') ∧
      info.reseller_id = r.reseller_id ∧
      info.expiry_date = r.expiry_date ∧
      info.users.max = r.max_users ∧
      info.bandwidth.limit_bytes = r.bandwidth_limit ∧
      (∀ x ∈ db'.resellers, ∃ y ∈ db.resellers,
        x.reseller_id = y.reseller_id ∧ x.bandwidth_limit = y.bandwidth_limit ∧
        x.expiry_date = y.expiry_date ∧ x.max_users = y.max_users) ∧
      (∃ x ∈ db'.resellers, x.reseller_id = r.reseller_id) ∧
      db'.end_users = db.end_users ∧
      db'.notifications = db.notifications ∧
      db'.usage_log = db.usage_log := by
  have hmem : r ∈ db.resellers := lookupReseller_mem h
  unfold get_reseller_info
  rw [h]
  dsimp only
  generalize (match api with
    | some a => if r.marzban_username == "" then none else a.getResult
    | none => (none : Option Int)) = remoteUsed
  cases remoteUsed with
  | none =>
    refine ⟨_, _, rfl, rfl, rfl, rfl, rfl, ?_, ⟨r, hmem, rfl⟩, rfl, rfl, rfl⟩
    intro x hx
    exact ⟨x, hx, rfl, rfl, rfl, rfl⟩
  | some t =>
    refine ⟨_, _, rfl, rfl, rfl, rfl, rfl, ?_, ?_, rfl, rfl, rfl⟩
    · intro x hx
      rcases List.mem_map.1 hx with ⟨y, hy, rfl⟩
      by_cases hb : (y.reseller_id == r.reseller_id) = true
      · rw [if_pos hb]
        exact ⟨y, hy, rfl, rfl, rfl, rfl⟩
      · rw [if_neg hb]
        exact ⟨y, hy, rfl, rfl, rfl, rfl⟩
    · refine ⟨_, List.mem_map_of_mem _ hmem, ?_⟩
      by_cases hb : (r.reseller_id == r.reseller_id) = true
      · rw [if_pos hb]
      · rw [if_neg hb]

/-- C3: the extend operation anchors the new expiry to the stored expiry.
Whenever `update_reseller_limits` finds the reseller and commits, every
stored row of that reseller carries `expiry_date + add_days` days — a value
independent of the current time; concretely, extending by 10 days a budget
expired 2 days ago lands exactly 8 days in the future. -/
theorem c3_extend_anchored_to_old_expiry :
    (∀ (db : DB) (tid rid : Option Int) (mu : Option String)
        (addB addD addU : Int) (api : Option MarzbanStub) (now : Int) (r : Reseller),
        lookupReseller db tid rid mu = some r →
        (update_reseller_limits db rid tid mu addB addD addU api now).1 = true →
        ((∃ x ∈ (update_reseller_limits db rid tid mu addB addD addU api now).2.resellers,
            x.reseller_id = r.reseller_id) ∧
         (∀ x ∈ (update_reseller_limits db rid tid mu addB addD addU api now).2.resellers,
            x.reseller_id = r.reseller_id →
            x.expiry_date = r.expiry_date + addD * 86400))) ∧
    ((update_reseller_limits expiredDb none (some 10) none 0 10 0 (some apiOk) 1000000).1
        = true ∧
     ((update_reseller_limits expiredDb none (some 10) none 0 10 0 (some apiOk)
        1000000).2.resellers.map (fun x => x.expiry_date)) = [1000000 + 8 * 86400]) := by
  constructor
  · intro db tid rid mu addB addD addU api now r hlook hsucc
    obtain ⟨info, db', heq, hid, hexp, hmax, hlim, hrows, ⟨y, hy, hyid⟩, hu, hn, hl⟩ :=
      @get_reseller_info_found db tid rid mu api now r hlook
    unfold update_reseller_limits at hsucc ⊢
    rw [heq] at hsucc ⊢
    dsimp only at hsucc ⊢
    split_ifs at hsucc ⊢ with hf
    dsimp only
    constructor
    · refine ⟨_, List.mem_map_of_mem _ hy, ?_⟩
      have hb : (y.reseller_id == info.reseller_id) = true := by
        rw [hid]; exact beq_iff_eq.2 hyid
      rw [if_pos hb]
      exact hyid
    · intro x hx hxid
      rcases List.mem_map.1 hx with ⟨z, hz, rfl⟩
      by_cases hb : (z.reseller_id == info.reseller_id) = true
      · rw [if_pos hb]
        dsimp only
        rw [hexp]
      · rw [if_neg hb] at hxid ⊢
        exact absurd (beq_iff_eq.2 (hxid.trans hid.symm)) hb
  · exact ⟨by decide, by decide⟩

/-- C3 witness: the anchoring law applied to the concrete expired store. -/
theorem c3_extend_anchored_witness :
    (∃ x ∈ (update_reseller_limits expiredDb none (some 10) none 0 10 0 (some apiOk)
        1000000).2.resellers, x.reseller_id = expiredReseller.reseller_id) ∧
    (∀ x ∈ (update_reseller_limits expiredDb none (some 10) none 0 10 0 (some apiOk)
        1000000).2.resellers, x.reseller_id = expiredReseller.reseller_id →
        x.expiry_date = expiredReseller.expiry_date + 10 * 86400) :=
  c3_extend_anchored_to_old_expiry.1 expiredDb (some 10) none none 0 10 0 (some apiOk)
    1000000 expiredReseller (by decide) (by decide)

/-- C9: when the remote panel update fails, `update_reseller_limits` returns
a failure and skips the local commit: every reseller row still carries its
original `bandwidth_limit`, `expiry_date` and `max_users`. -/
theorem c9_remote_failure_skips_commit :
    ∀ (db : DB) (rid tid : Option Int) (mu : Option String)
      (addB addD addU : Int) (a : MarzbanStub) (now : Int),
      a.updateOk = false →
      ((update_reseller_limits db rid tid mu addB addD addU (some a) now).1 = false ∧
       (∀ x ∈ (update_reseller_limits db rid tid mu addB addD addU (some a) now).2.resellers,
          ∃ y ∈ db.resellers,
            x.reseller_id = y.reseller_id ∧ x.bandwidth_limit = y.bandwidth_limit ∧
            x.expiry_date = y.expiry_date ∧ x.max_users = y.max_users)) := by
  intro db rid tid mu addB addD addU a now hfail
  cases hlook : lookupReseller db tid rid mu with
  | none =>
    unfold update_reseller_limits get_reseller_info
    rw [hlook]
    dsimp only
    exact ⟨rfl, fun x hx => ⟨x, hx, rfl, rfl, rfl, rfl⟩⟩
  | some r =>
    obtain ⟨info, db', heq, hid, hexp, hmax, hlim, hrows, hex, hu, hn, hl⟩ :=
      @get_reseller_info_found db tid rid mu (some a) now r hlook
    unfold update_reseller_limits
    rw [heq]
    dsimp only
    have hf : (!a.updateOk) = true := by rw [hfail]; rfl
    rw [if_pos hf]
    exact ⟨rfl, hrows⟩

/-- C9 witness: a failing remote update against the concrete scenario store
commits nothing. -/
theorem c9_remote_failure_witness :
    ((update_reseller_limits scenarioDb none (some 10) none 5 5 5
        (some { getResult := none, createOk := true, updateOk := false }) 0).1 = false ∧
     (∀ x ∈ (update_reseller_limits scenarioDb none (some 10) none 5 5 5
          (some { getResult := none, createOk := true, updateOk := false }) 0).2.resellers,
        ∃ y ∈ scenarioDb.resellers,
          x.reseller_id = y.reseller_id ∧ x.bandwidth_limit = y.bandwidth_limit ∧
          x.expiry_date = y.expiry_date ∧ x.max_users = y.max_users)) :=
  c9_remote_failure_skips_commit scenarioDb none (some 10) none 5 5 5
    { getResult := none, createOk := true, updateOk := false } 0 rfl

/-- The two inequalities characterizing `(c + ps - 1) / ps` as the ceiling
of `c / ps`. -/
theorem pagination_bounds (c ps : Nat) (hps : 0 < ps) :
    c ≤ ((c + ps - 1) / ps) * ps ∧ ((c + ps - 1) / ps) * ps < c + ps := by
  have hdm := Nat.div_add_mod (c + ps - 1) ps
  have hmlt := Nat.mod_lt (c + ps - 1) hps
  have hcomm : ps * ((c + ps - 1) / ps) = ((c + ps - 1) / ps) * ps := Nat.mul_comm _ _
  rw [hcomm] at hdm
  omega

/-- C4 counterexample.  The claim says every paginated listing returns
`totalPages = ceil(count/pageSize)` with a minimum of 1 page even when
empty.  `list_resellers` has no such minimum: over an empty store with
`page_size = 10` it returns `totalPages = 0`, not 1 (still a success with
an empty item list). -/
theorem c4_empty_pages_counterexample :
    (list_resellers emptyDb 0 10 0).1 = true ∧
    (list_resellers emptyDb 0 10 0).2.1 = [] ∧
    (list_resellers emptyDb 0 10 0).2.2 = 0 ∧
    ¬((list_resellers emptyDb 0 10 0).2.2 = 1) := by
  exact ⟨rfl, rfl, rfl, by decide⟩

/-- C4 amended: both listings report an empty result set as a success with
an empty list and compute `totalPages` as the ceiling of
`count / pageSize`, but only `list_users_for_reseller` applies the
minimum of one page (empty result ⇒ 1); `list_resellers` returns the bare
ceiling, which is 0 for an empty table.  Concretely, 25 items at page size
10 give 3 pages in both, and an empty user list gives `(true, [], 1)`. -/
theorem c4_pagination_amended :
    (∀ (db : DB) (page ps : Nat) (now : Int), 0 < ps →
      ((list_resellers db page ps now).1 = true ∧
       db.resellers.length ≤ (list_resellers db page ps now).2.2 * ps ∧
       (list_resellers db page ps now).2.2 * ps < db.resellers.length + ps)) ∧
    (∀ (db : DB) (tid : Int) (r : Reseller) (page ps : Nat) (now : Int),
      findResellerByTelegram db tid = some r → 0 < ps →
      ((list_users_for_reseller db tid page ps now).1 = true ∧
       1 ≤ (list_users_for_reseller db tid page ps now).2.2 ∧
       (db.end_users.filter (fun u => u.reseller_id == r.reseller_id)).length ≤
         (list_users_for_reseller db tid page ps now).2.2 * ps ∧
       (0 < (db.end_users.filter (fun u => u.reseller_id == r.reseller_id)).length →
         (list_users_for_reseller db tid page ps now).2.2 * ps <
           (db.end_users.filter (fun u => u.reseller_id == r.reseller_id)).length + ps))) ∧
    ((list_resellers db25 0 10 0).2.2 = 3 ∧
     (list_users_for_reseller db25users 10 0 10 0).2.2 = 3 ∧
     list_users_for_reseller scenarioDb 10 0 10 0 = (true, [], 1)) := by
  refine ⟨?_, ?_, by decide, by decide, by decide⟩
  · intro db page ps now hps
    unfold list_resellers
    dsimp only
    exact ⟨rfl, (pagination_bounds db.resellers.length ps hps).1,
      (pagination_bounds db.resellers.length ps hps).2⟩
  · intro db tid r page ps now hfind hps
    unfold list_users_for_reseller
    rw [hfind]
    dsimp only
    split_ifs with h0
    · refine ⟨rfl, ?_, ?_, fun _ => ?_⟩
      · rw [Nat.one_le_div_iff hps]
        omega
      · exact (pagination_bounds _ ps hps).1
      · exact (pagination_bounds _ ps hps).2
    · refine ⟨rfl, le_refl 1, ?_, fun hpos => absurd hpos h0⟩
      simpa using Nat.le_of_lt_succ (by omega : (db.end_users.filter
        (fun u => u.reseller_id == r.reseller_id)).length < ps + 1)

/-- C4 witness: the amended page-count law applied to the 25-user store. -/
theorem c4_pagination_witness :
    (list_users_for_reseller db25users 10 0 10 0).1 = true ∧
    1 ≤ (list_users_for_reseller db25users 10 0 10 0).2.2 ∧
    (db25users.end_users.filter
        (fun u => u.reseller_id == scenarioReseller.reseller_id)).length ≤
      (list_users_for_reseller db25users 10 0 10 0).2.2 * 10 ∧
    (0 < (db25users.end_users.filter
        (fun u => u.reseller_id == scenarioReseller.reseller_id)).length →
      (list_users_for_reseller db25users 10 0 10 0).2.2 * 10 <
        (db25users.end_users.filter
          (fun u => u.reseller_id == scenarioReseller.reseller_id)).length + 10) :=
  c4_pagination_amended.2.1 db25users 10 scenarioReseller 0 10 0 (by decide) (by decide)

/-- C7: among end-users with an owning reseller and no recent
`bandwidth_warning` record, the bandwidth selection of the sweep picks exactly
those whose remaining bandwidth lies in `(0, 322122547200]`; at the
boundary, remaining exactly 322122547200 bytes qualifies, 322122547201 does
not, and zero or negative remaining does not. -/
theorem c7_bandwidth_warning_threshold :
    (∀ (db : DB) (now : Int) (u : EndUser),
        u ∈ db.end_users →
        (db.resellers.any fun r => r.reseller_id == u.reseller_id) = true →
        hasRecentNotification db.notifications u.user_id "bandwidth_warning" now
          (3 * 86400) = false →
        (u ∈ bandwidthWarningRows db now ↔
          (0 < u.bandwidth_limit - u.bandwidth_used ∧
           u.bandwidth_limit - u.bandwidth_used ≤ 322122547200))) ∧
    (bwUserAt 322122547200 ∈ bandwidthWarningRows (bwDbAt 322122547200) 0 ∧
     bwUserAt 322122547201 ∉ bandwidthWarningRows (bwDbAt 322122547201) 0 ∧
     bwUserAt 0 ∉ bandwidthWarningRows (bwDbAt 0) 0 ∧
     bwUserAt (-5) ∉ bandwidthWarningRows (bwDbAt (-5)) 0) := by
  constructor
  · intro db now u hmem hjoin hno
    unfold bandwidthWarningRows
    rw [List.mem_filter]
    simp only [hmem, hjoin, hno, Bool.true_and, Bool.not_false, Bool.and_true,
      Bool.and_eq_true, decide_eq_true_eq, true_and]
    tauto
  · exact ⟨by decide, by decide, by decide, by decide⟩

/-- C7 witness: the selection law applied at the 300GiB boundary store. -/
theorem c7_bandwidth_warning_witness :
    bwUserAt 322122547200 ∈ bandwidthWarningRows (bwDbAt 322122547200) 0 ↔
      (0 < (bwUserAt 322122547200).bandwidth_limit -
            (bwUserAt 322122547200).bandwidth_used ∧
       (bwUserAt 322122547200).bandwidth_limit -
          (bwUserAt 322122547200).bandwidth_used ≤ 322122547200) :=
  c7_bandwidth_warning_threshold.1 (bwDbAt 322122547200) 0 (bwUserAt 322122547200)
    (by decide) (by decide) (by decide)

/-- C8: the sweep deduplicates under its 3-day cool-down.  If an end-user
already has a `bandwidth_warning` notification newer than 3 days, running
the sweep adds no `bandwidth_warning` row for it; concretely, sweeping the
qualifying store twice one day apart records exactly one notification, not
two. -/
theorem c8_sweep_dedup :
    (∀ (db : DB) (now uid : Int),
        hasRecentNotification db.notifications uid "bandwidth_warning" now
          (3 * 86400) = true →
        countBW (check_and_notify_users db now) uid = countBW db uid) ∧
    (countBW (check_and_notify_users c8Db 1000) 1 = 1 ∧
     countBW (check_and_notify_users (check_and_notify_users c8Db 1000)
        (1000 + 86400)) 1 = 1) := by
  constructor
  · intro db now uid hrec
    unfold check_and_notify_users countBW
    dsimp only
    rw [List.filter_append, List.filter_append, List.length_append, List.length_append]
    have hbw : (List.filter (fun n =>
        n.user_id == uid && n.notification_type == "bandwidth_warning")
        ((bandwidthWarningRows db now).map (fun u =>
          ({ user_id := u.user_id, notification_type := "bandwidth_warning",
             sent_at := now } : Notification)))) = [] := by
      rw [List.filter_eq_nil_iff]
      intro n hn
      rcases List.mem_map.1 hn with ⟨u, hu, rfl⟩
      unfold bandwidthWarningRows at hu
      rw [List.mem_filter] at hu
      have hcond := hu.2
      simp only [Bool.and_eq_true, Bool.not_eq_true'] at hcond
      intro hcontr
      simp only [Bool.and_eq_true, beq_iff_eq] at hcontr
      have huid : u.user_id = uid := hcontr.1
      rw [huid] at hcond
      rw [hcond.2] at hrec
      cases hrec
    have hex : ∀ l : List EndUser, (List.filter (fun n =>
        n.user_id == uid && n.notification_type == "bandwidth_warning")
        (l.map (fun u =>
          ({ user_id := u.user_id, notification_type := "expiry_warning",
             sent_at := now } : Notification)))) = [] := by
      intro l
      rw [List.filter_eq_nil_iff]
      intro n hn
      rcases List.mem_map.1 hn with ⟨u, hu, rfl⟩
      simp
    rw [hbw, hex]
    simp
  · exact ⟨by decide, by decide⟩

/-- C8 witness: the dedup law applied to the store right after the first
sweep, one day later. -/
theorem c8_sweep_dedup_witness :
    countBW (check_and_notify_users (check_and_notify_users c8Db 1000)
        (1000 + 86400)) 1 =
      countBW (check_and_notify_users c8Db 1000) 1 :=
  c8_sweep_dedup.1 (check_and_notify_users c8Db 1000) (1000 + 86400) 1 (by decide)

/-- C5 counterexample.  The claim says a call failing authorization while a
credential is held triggers one re-authentication and exactly one retry.
In the source the five API methods log in only when `self.token` is unset;
with a token held and a 401 response the call surfaces the failure after
zero login exchanges and a single request — not one login and two
requests. -/
theorem c5_no_reauth_retry_counterexample :
    marzbanCall (some "tok") (some "fresh") (fun _ => (401, "unauthorized")) =
      ((false, "API error"), 0, 1) ∧
    ¬((marzbanCall (some "tok") (some "fresh") (fun _ => (401, "unauthorized"))).2 =
        (1, 2)) :=
  ⟨rfl, by decide⟩

/-- C5 amended: the gateway authenticates only when it holds no credential
(login on first use): every call performs at most one login exchange and at
most one request, a held credential means zero login exchanges, and a
non-200 response with a held credential is surfaced directly as a failure
with no re-authentication and no retry. -/
theorem c5_login_on_first_use_amended :
    ∀ (token loginToken : Option String) (respond : String → Nat × String),
      ((marzbanCall token loginToken respond).2.1 ≤ 1 ∧
       (marzbanCall token loginToken respond).2.2 ≤ 1) ∧
      (∀ t, token = some t → (marzbanCall token loginToken respond).2.1 = 0) ∧
      (∀ t, token = some t → (respond t).1 ≠ 200 →
        (marzbanCall token loginToken respond).1.1 = false) := by
  intro token lt respond
  cases token with
  | some t =>
    unfold marzbanCall
    dsimp only
    by_cases h : ((respond t).1 == 200) = true
    · rw [if_pos h]
      refine ⟨⟨Nat.zero_le 1, Nat.le_refl 1⟩, ⟨fun t' _ => rfl, fun t' ht' hne => ?_⟩⟩
      cases ht'
      exact absurd (by simpa using h) hne
    · rw [if_neg h]
      exact ⟨⟨Nat.zero_le 1, Nat.le_refl 1⟩, ⟨fun t' _ => rfl, fun t' _ _ => rfl⟩⟩
  | none =>
    cases lt with
    | none =>
      exact ⟨⟨Nat.le_refl 1, Nat.zero_le 1⟩,
        ⟨fun t' ht' => Option.noConfusion ht', fun t' ht' _ => Option.noConfusion ht'⟩⟩
    | some t =>
      unfold marzbanCall
      dsimp only
      by_cases h : ((respond t).1 == 200) = true
      · rw [if_pos h]
        exact ⟨⟨Nat.le_refl 1, Nat.le_refl 1⟩,
          ⟨fun t' ht' => Option.noConfusion ht', fun t' ht' _ => Option.noConfusion ht'⟩⟩
      · rw [if_neg h]
        exact ⟨⟨Nat.le_refl 1, Nat.le_refl 1⟩,
          ⟨fun t' ht' => Option.noConfusion ht', fun t' ht' _ => Option.noConfusion ht'⟩⟩

/-- C5 witness: the no-re-authentication law applied to a held credential
and a 401 response. -/
theorem c5_login_on_first_use_witness :
    (marzbanCall (some "tok") none (fun _ => (401, "unauthorized"))).2.1 = 0 :=
  (c5_login_on_first_use_amended (some "tok") none
    (fun _ => (401, "unauthorized"))).2.1 "tok" rfl

/-- C6 counterexample.  The claim says every Budget-affecting transition
writes exactly one usage-ledger row in the same transaction.  In the scenario
the successful 60GiB end-user creation increments the stored reseller
`bandwidth_used` and `current_users` yet leaves `usage_log` empty — zero
rows, not one. -/
theorem c6_missing_ledger_counterexample :
    scenarioStep1.1 = true ∧
    scenarioDb.usage_log = [] ∧
    scenarioDb1.usage_log = [] ∧
    findResellerByTelegram scenarioDb1 10 = some scenarioReseller1 :=
  ⟨by decide, rfl, by decide, by decide⟩

/-- C6 amended: a successful end-user creation commits the `end_users`
insert and the reseller Budget update together, but writes no usage-ledger
row at all: `create_user` leaves `usage_log` unchanged on every path, so the
one-UsageEvent-per-transition invariant does not hold. -/
theorem c6_create_user_no_ledger_amended :
    ∀ (db : DB) (tid : Int) (uname : String) (gb days cl now : Int) (uid : String)
      (api : Option MarzbanStub),
      (create_user db tid uname gb days cl now uid api).2.usage_log = db.usage_log := by
  intro db tid uname gb days cl now uid api
  unfold create_user
  cases hf : findResellerByTelegram db tid with
  | none => rfl
  | some r =>
    dsimp only
    split_ifs <;> rfl

/-- The safety facts of a `"bandwidth"` record: remaining bytes are clamped
at zero and the percentage is the literal 0 when the limit is zero. -/
theorem mkBandwidthInfo_safe (L U : Int) :
    (mkBandwidthInfo L U).remaining_bytes =
      max 0 ((mkBandwidthInfo L U).limit_bytes - (mkBandwidthInfo L U).used_bytes) ∧
    0 ≤ (mkBandwidthInfo L U).remaining_bytes ∧
    ((mkBandwidthInfo L U).limit_bytes = 0 → (mkBandwidthInfo L U).percent_used = 0) := by
  refine ⟨rfl, le_max_left 0 _, fun hL => ?_⟩
  dsimp [mkBandwidthInfo] at hL ⊢
  rw [hL]
  simp

/-- C10: every successful `get_reseller_info` or `get_user_info` returns a
bandwidth record with `remaining_bytes = max 0 (limit - used)` (never
negative, even when usage exceeds the limit) and `percent_used = 0` whenever
`limit_bytes = 0`, so the percentage division is never taken over a zero
divisor. -/
theorem c10_bandwidth_record_safe :
    (∀ (db : DB) (tid rid : Option Int) (mu : Option String) (api : Option MarzbanStub)
        (now : Int) (info : ResellerInfo) (db' : DB),
        get_reseller_info db tid rid mu api now = (some info, db') →
        (info.bandwidth.remaining_bytes =
          max 0 (info.bandwidth.limit_bytes - info.bandwidth.used_bytes) ∧
         0 ≤ info.bandwidth.remaining_bytes ∧
         (info.bandwidth.limit_bytes = 0 → info.bandwidth.percent_used = 0))) ∧
    (∀ (db : DB) (uidSel : Option Int) (mu : Option String) (api : Option MarzbanStub)
        (now : Int) (info : UserInfo) (db' : DB),
        get_user_info db uidSel mu api now = (some info, db') →
        (info.bandwidth.remaining_bytes =
          max 0 (info.bandwidth.limit_bytes - info.bandwidth.used_bytes) ∧
         0 ≤ info.bandwidth.remaining_bytes ∧
         (info.bandwidth.limit_bytes = 0 → info.bandwidth.percent_used = 0))) := by
  constructor
  · intro db tid rid mu api now info db' heq
    unfold get_reseller_info at heq
    cases hlook : lookupReseller db tid rid mu with
    | none => rw [hlook] at heq; simp at heq
    | some r =>
      rw [hlook] at heq
      dsimp only at heq
      have h1 := congrArg Prod.fst heq
      dsimp only at h1
      have h2 := Option.some.inj h1
      subst h2
      exact mkBandwidthInfo_safe r.bandwidth_limit _
  · intro db uidSel mu api now info db' heq
    unfold get_user_info at heq
    cases hlook : lookupEndUser db uidSel mu with
    | none => rw [hlook] at heq; simp at heq
    | some u =>
      rw [hlook] at heq
      dsimp only at heq
      have h1 := congrArg Prod.fst heq
      dsimp only at h1
      have h2 := Option.some.inj h1
      subst h2
      exact mkBandwidthInfo_safe u.bandwidth_limit _

/-- C10 witness: the safety facts applied to the info record of the scenario
reseller. -/
theorem c10_bandwidth_record_witness :
    scenarioInfo.bandwidth.remaining_bytes =
      max 0 (scenarioInfo.bandwidth.limit_bytes - scenarioInfo.bandwidth.used_bytes) ∧
    0 ≤ scenarioInfo.bandwidth.remaining_bytes ∧
    (scenarioInfo.bandwidth.limit_bytes = 0 → scenarioInfo.bandwidth.percent_used = 0) :=
  c10_bandwidth_record_safe.1 scenarioDb (some 10) none none none 0 scenarioInfo
    scenarioDb rfl

end MrzAdmin
